import Mathlib

set_option maxRecDepth 16384

/-!
Verification of the Gemns IoT BLE advertisement packet codec
(`custom_components/gemns_iot/packet_parser.py`).

The Python source is shallowly embedded: bytes are `List Nat`, Python
exceptions are an explicit `Except PyExc` layer (the orchestrator and the
decryptor catch `ValueError`/`KeyError`/`AttributeError`/`TypeError`), and
the `cryptography` library's AES-ECB block decryption is modelled by an
executable Rijndael inverse cipher.
-/

namespace Gemns

/-- The Python exception classes that the parser's code can raise.
`structError` stands for `struct.error`, which is NOT in any `except` clause
of the source. -/
inductive PyExc
  | valueError
  | keyError
  | attributeError
  | typeError
  | structError
deriving DecidableEq

/-- Decidable equality for `Except`, used to evaluate the model on concrete
inputs. -/
instance {α β : Type} [DecidableEq α] [DecidableEq β] : DecidableEq (Except α β) := fun x y =>
  match x, y with
  | .error a, .error b =>
      match decEq a b with
      | isTrue h => isTrue (h ▸ rfl)
      | isFalse h => isFalse (fun hc => h (by cases hc; rfl))
  | .ok a, .ok b =>
      match decEq a b with
      | isTrue h => isTrue (h ▸ rfl)
      | isFalse h => isFalse (fun hc => h (by cases hc; rfl))
  | .error _, .ok _ => isFalse (fun hc => by cases hc)
  | .ok _, .error _ => isFalse (fun hc => by cases hc)

/-- The exception classes caught by `except (ValueError, KeyError,
AttributeError, TypeError)` in `decrypt_payload` and `parse_gems_packet`. -/
def pyCaught : PyExc → Bool
  | .valueError => true
  | .keyError => true
  | .attributeError => true
  | .typeError => true
  | .structError => false

/-- `COMPANY_ID = 0x0F9C` from the source. -/
def COMPANY_ID : Nat := 0x0F9C

/-- `PACKET_LENGTH = 18` from the source. -/
def PACKET_LENGTH : Nat := 18

/-- `ENCRYPTED_DATA_SIZE = 16` from the source. -/
def ENCRYPTED_DATA_SIZE : Nat := 16

/-- `struct.pack("<H", COMPANY_ID)`: the two little-endian bytes of 0x0F9C. -/
def companyIdBytes : List Nat := [0x9C, 0x0F]

/-- Little-endian unsigned value of a byte list (what `struct.unpack` with a
`<` format computes on the given bytes). -/
def leVal (l : List Nat) : Nat := l.foldr (fun b acc => b + 256 * acc) 0

/-- `struct.unpack("<..", l)`: requires exactly `n` bytes, else raises
`struct.error`. -/
def pyUnpackLE (n : Nat) (l : List Nat) : Except PyExc Nat :=
  if l.length = n then .ok (leVal l) else .error .structError

/-- `GemnsPacketFlags`: the four bitfields of the flags byte. -/
structure GemnsPacketFlags where
  encrypt_status : Nat
  self_external_power : Nat
  event_counter_lsb : Nat
  payload_length : Nat
deriving DecidableEq

/-- `GemnsPacketFlags.__init__`. -/
def GemnsPacketFlags.make (b : Nat) : GemnsPacketFlags :=
  { encrypt_status := b &&& 0x01
    self_external_power := (b >>> 1) &&& 0x01
    event_counter_lsb := (b >>> 2) &&& 0x03
    payload_length := (b >>> 4) &&& 0x0F }

/-- `GemnsEncryptedData`: the fixed-offset field slices of a 16-byte block. -/
structure GemnsEncryptedData where
  data_bytes : List Nat
  src_id : List Nat
  nwk_id : List Nat
  fw_version : Nat
  device_type : List Nat
  payload : List Nat
deriving DecidableEq

/-- The field slicing performed by `GemnsEncryptedData.__init__` once the
length check has passed: `data[0:3]`, `data[3:5]`, `data[5]`, `data[6:8]`,
`data[8:16]`. -/
def GemnsEncryptedData.ofBytes (data : List Nat) : GemnsEncryptedData :=
  { data_bytes := data
    src_id := data.take 3
    nwk_id := (data.drop 3).take 2
    fw_version := data.getD 5 0
    device_type := (data.drop 6).take 2
    payload := (data.drop 8).take 8 }

/-- `GemnsEncryptedData.__init__`: raises `ValueError` unless the data is
exactly `ENCRYPTED_DATA_SIZE` bytes. -/
def GemnsEncryptedData.make (data : List Nat) : Except PyExc GemnsEncryptedData :=
  if data.length ≠ ENCRYPTED_DATA_SIZE then .error .valueError
  else .ok (GemnsEncryptedData.ofBytes data)

/-! ### Model of the `cryptography` library's AES-ECB decryption

`algorithms.AES` accepts keys of 16, 24 or 32 bytes (AES-128/192/256) and
raises `ValueError` otherwise, or `TypeError` for a non-byteslike key.
Single-block ECB decryption is the Rijndael inverse cipher (FIPS 197),
implemented here over byte lists with the standard S-box tables. -/

/-- The AES forward S-box (FIPS 197), used by the key schedule. -/
def SBOX : List Nat :=
  [99, 124, 119, 123, 242, 107, 111, 197, 48, 1, 103, 43, 254, 215, 171, 118,
   202, 130, 201, 125, 250, 89, 71, 240, 173, 212, 162, 175, 156, 164, 114, 192,
   183, 253, 147, 38, 54, 63, 247, 204, 52, 165, 229, 241, 113, 216, 49, 21,
   4, 199, 35, 195, 24, 150, 5, 154, 7, 18, 128, 226, 235, 39, 178, 117,
   9, 131, 44, 26, 27, 110, 90, 160, 82, 59, 214, 179, 41, 227, 47, 132,
   83, 209, 0, 237, 32, 252, 177, 91, 106, 203, 190, 57, 74, 76, 88, 207,
   208, 239, 170, 251, 67, 77, 51, 133, 69, 249, 2, 127, 80, 60, 159, 168,
   81, 163, 64, 143, 146, 157, 56, 245, 188, 182, 218, 33, 16, 255, 243, 210,
   205, 12, 19, 236, 95, 151, 68, 23, 196, 167, 126, 61, 100, 93, 25, 115,
   96, 129, 79, 220, 34, 42, 144, 136, 70, 238, 184, 20, 222, 94, 11, 219,
   224, 50, 58, 10, 73, 6, 36, 92, 194, 211, 172, 98, 145, 149, 228, 121,
   231, 200, 55, 109, 141, 213, 78, 169, 108, 86, 244, 234, 101, 122, 174, 8,
   186, 120, 37, 46, 28, 166, 180, 198, 232, 221, 116, 31, 75, 189, 139, 138,
   112, 62, 181, 102, 72, 3, 246, 14, 97, 53, 87, 185, 134, 193, 29, 158,
   225, 248, 152, 17, 105, 217, 142, 148, 155, 30, 135, 233, 206, 85, 40, 223,
   140, 161, 137, 13, 191, 230, 66, 104, 65, 153, 45, 15, 176, 84, 187, 22]

/-- The AES inverse S-box (FIPS 197). -/
def INV_SBOX : List Nat :=
  [82, 9, 106, 213, 48, 54, 165, 56, 191, 64, 163, 158, 129, 243, 215, 251,
   124, 227, 57, 130, 155, 47, 255, 135, 52, 142, 67, 68, 196, 222, 233, 203,
   84, 123, 148, 50, 166, 194, 35, 61, 238, 76, 149, 11, 66, 250, 195, 78,
   8, 46, 161, 102, 40, 217, 36, 178, 118, 91, 162, 73, 109, 139, 209, 37,
   114, 248, 246, 100, 134, 104, 152, 22, 212, 164, 92, 204, 93, 101, 182, 146,
   108, 112, 72, 80, 253, 237, 185, 218, 94, 21, 70, 87, 167, 141, 157, 132,
   144, 216, 171, 0, 140, 188, 211, 10, 247, 228, 88, 5, 184, 179, 69, 6,
   208, 44, 30, 143, 202, 63, 15, 2, 193, 175, 189, 3, 1, 19, 138, 107,
   58, 145, 17, 65, 79, 103, 220, 234, 151, 242, 207, 206, 240, 180, 230, 115,
   150, 172, 116, 34, 231, 173, 53, 133, 226, 249, 55, 232, 28, 117, 223, 110,
   71, 241, 26, 113, 29, 41, 197, 137, 111, 183, 98, 14, 170, 24, 190, 27,
   252, 86, 62, 75, 198, 210, 121, 32, 154, 219, 192, 254, 120, 205, 90, 244,
   31, 221, 168, 51, 136, 7, 199, 49, 177, 18, 16, 89, 39, 128, 236, 95,
   96, 81, 127, 169, 25, 181, 74, 13, 45, 229, 122, 159, 147, 201, 156, 239,
   160, 224, 59, 77, 174, 42, 245, 176, 200, 235, 187, 60, 131, 83, 153, 97,
   23, 43, 4, 126, 186, 119, 214, 38, 225, 105, 20, 99, 85, 33, 12, 125]

/-- The AES round constants. -/
def RCON : List Nat := [0x01, 0x02, 0x04, 0x08, 0x10, 0x20, 0x40, 0x80, 0x1B, 0x36]

/-- Forward S-box lookup. -/
def sboxAt (b : Nat) : Nat := SBOX.getD b 0

/-- Inverse S-box lookup. -/
def invSboxAt (b : Nat) : Nat := INV_SBOX.getD b 0

/-- Multiplication by x in GF(2^8) modulo the AES polynomial 0x11B. -/
def xtime (b : Nat) : Nat :=
  if b &&& 0x80 ≠ 0 then ((b <<< 1) ^^^ 0x1B) &&& 0xFF else (b <<< 1) &&& 0xFF

/-- Iterated core of GF(2^8) multiplication. -/
def gmulAux : Nat → Nat → Nat → Nat → Nat
  | 0, _, _, acc => acc
  | n + 1, a, b, acc => gmulAux n (xtime a) (b >>> 1) (if b &&& 1 = 1 then acc ^^^ a else acc)

/-- Multiplication in GF(2^8). -/
def gmul (a b : Nat) : Nat := gmulAux 8 a b 0

/-- Bytewise XOR of two words. -/
def xorWord (a b : List Nat) : List Nat := List.zipWith (fun x y => x ^^^ y) a b

/-- `SubWord` of the AES key schedule. -/
def subWord (w : List Nat) : List Nat := w.map sboxAt

/-- `RotWord` of the AES key schedule. -/
def rotWord (w : List Nat) : List Nat := w.drop 1 ++ w.take 1

/-- Split the first `n` 4-byte words off a byte list. -/
def takeWords : Nat → List Nat → List (List Nat)
  | 0, _ => []
  | n + 1, l => l.take 4 :: takeWords n (l.drop 4)

/-- One step of the AES key expansion: the word at index `ws.length`. -/
def nextWord (nk : Nat) (ws : List (List Nat)) : List Nat :=
  let i := ws.length
  let temp := ws.getD (i - 1) []
  let temp :=
    if i % nk = 0 then xorWord (subWord (rotWord temp)) [RCON.getD (i / nk - 1) 0, 0, 0, 0]
    else if 6 < nk ∧ i % nk = 4 then subWord temp
    else temp
  xorWord (ws.getD (i - nk) []) temp

/-- Generate `n` further words of the AES key schedule. -/
def keyExpandAux (nk : Nat) : Nat → List (List Nat) → List (List Nat)
  | 0, ws => ws
  | n + 1, ws => keyExpandAux nk n (ws ++ [nextWord nk ws])

/-- AES key expansion (FIPS 197 `KeyExpansion`) for Nk = keylen/4,
Nr = Nk + 6. -/
def keyExpansion (key : List Nat) : List (List Nat) :=
  let nk := key.length / 4
  let nr := nk + 6
  keyExpandAux nk (4 * (nr + 1) - nk) (takeWords nk key)

/-- The 16 bytes of round key `r` (concatenation of 4 schedule words). -/
def roundKey (w : List (List Nat)) (r : Nat) : List Nat :=
  w.getD (4 * r) [] ++ w.getD (4 * r + 1) [] ++ w.getD (4 * r + 2) [] ++ w.getD (4 * r + 3) []

/-- `AddRoundKey`: bytewise XOR of state and round key. -/
def addRoundKey (s k : List Nat) : List Nat := List.zipWith (fun x y => x ^^^ y) s k

/-- `InvSubBytes`. -/
def invSubBytes (s : List Nat) : List Nat := s.map invSboxAt

/-- `InvShiftRows` on the flat column-major state (index r + 4c). -/
def invShiftRows (s : List Nat) : List Nat :=
  let g := fun i => s.getD i 0
  [g 0, g 13, g 10, g 7,
   g 4, g 1, g 14, g 11,
   g 8, g 5, g 2, g 15,
   g 12, g 9, g 6, g 3]

/-- `InvMixColumns` on a single column. -/
def invMixColumn : List Nat → List Nat
  | [a, b, c, d] =>
      [gmul 14 a ^^^ gmul 11 b ^^^ gmul 13 c ^^^ gmul 9 d,
       gmul 9 a ^^^ gmul 14 b ^^^ gmul 11 c ^^^ gmul 13 d,
       gmul 13 a ^^^ gmul 9 b ^^^ gmul 14 c ^^^ gmul 11 d,
       gmul 11 a ^^^ gmul 13 b ^^^ gmul 9 c ^^^ gmul 14 d]
  | l => l

/-- `InvMixColumns` on the whole state. -/
def invMixColumns (s : List Nat) : List Nat := ((takeWords 4 s).map invMixColumn).flatten

/-- Rounds Nr-1 down to 1 of the inverse cipher. -/
def invRoundsAux (w : List (List Nat)) : Nat → List Nat → List Nat
  | 0, s => s
  | r + 1, s =>
      invRoundsAux w r (invMixColumns (addRoundKey (invSubBytes (invShiftRows s)) (roundKey w (r + 1))))

/-- AES single-block decryption (`InvCipher` of FIPS 197). -/
def aesDecryptBlock (key block : List Nat) : List Nat :=
  let nr := key.length / 4 + 6
  let w := keyExpansion key
  let s := addRoundKey block (roundKey w nr)
  let s := invRoundsAux w (nr - 1) s
  addRoundKey (invSubBytes (invShiftRows s)) (roundKey w 0)

/-- Split a byte list into its `n` leading 16-byte blocks. -/
def blocksOf : Nat → List Nat → List (List Nat)
  | 0, _ => []
  | n + 1, l => l.take 16 :: blocksOf n (l.drop 16)

/-- AES-ECB decryption of a whole-number of blocks. -/
def aesEcbDecrypt (key data : List Nat) : List Nat :=
  ((blocksOf (data.length / 16) data).map (aesDecryptBlock key)).flatten

/-- `Cipher(algorithms.AES(key), modes.ECB()).decryptor()` followed by
`update` and `finalize`: `TypeError` for a missing key, `ValueError` for an
invalid key size or a non-multiple-of-16 input. -/
def aesEcbDecryptPy (key : Option (List Nat)) (data : List Nat) : Except PyExc (List Nat) :=
  match key with
  | none => .error .typeError
  | some k =>
      if k.length = 16 ∨ k.length = 24 ∨ k.length = 32 then
        if data.length % 16 = 0 then .ok (aesEcbDecrypt k data) else .error .valueError
      else .error .valueError

/-- The firmware version rendering of `decrypt_payload`:
major nibble, ".", minor nibble. -/
def firmwareString (b : Nat) : String :=
  toString ((b >>> 4) &&& 0x0F) ++ "." ++ toString (b &&& 0x0F)

/-- The dictionary returned by a successful `decrypt_payload`. -/
structure DecryptedData where
  src_id : Nat
  nwk_id : Nat
  fw_version : Nat
  firmware_version : String
  device_type : List Nat
  payload : List Nat
  event_counter_lsb : Nat
  payload_length : Nat
  encrypt_status : Nat
  power_status : Nat
deriving DecidableEq

/-- The `decrypt_payload` result dictionary as a function of the flags and
the 16-byte plaintext block (partial evaluation of the dictionary literal in
the source on the `GemnsEncryptedData` slices). -/
def mkDecryptedDict (f : GemnsPacketFlags) (b : List Nat) : DecryptedData :=
  { src_id := leVal (b.take 3 ++ [0])
    nwk_id := leVal ((b.drop 3).take 2)
    fw_version := b.getD 5 0
    firmware_version := firmwareString (b.getD 5 0)
    device_type := (b.drop 6).take 2
    payload := (b.drop 8).take 8
    event_counter_lsb := f.event_counter_lsb
    payload_length := f.payload_length
    encrypt_status := f.encrypt_status
    power_status := f.self_external_power }

/-- The second half of `decrypt_payload`'s `try` body: re-parse the
plaintext through `GemnsEncryptedData` and build the result dictionary. -/
def decryptedToDict (f : GemnsPacketFlags) (decrypted : List Nat) :
    Except PyExc DecryptedData :=
  match GemnsEncryptedData.make decrypted with
    | .error e => .error e
    | .ok r2 =>
      match pyUnpackLE 4 (r2.src_id ++ [0]) with
      | .error e => .error e
      | .ok srcVal =>
        match pyUnpackLE 2 r2.nwk_id with
        | .error e => .error e
        | .ok nwkVal =>
            .ok { src_id := srcVal
                  nwk_id := nwkVal
                  fw_version := r2.fw_version
                  firmware_version := firmwareString r2.fw_version
                  device_type := r2.device_type
                  payload := r2.payload
                  event_counter_lsb := f.event_counter_lsb
                  payload_length := f.payload_length
                  encrypt_status := f.encrypt_status
                  power_status := f.self_external_power }

/-- The `try` body of `GemnsPacket.decrypt_payload`: passthrough when
`encrypt_status == 1`, AES-ECB decryption otherwise, then re-parse the
plaintext and build the result dictionary. -/
def decrypt_payload_exc (f : GemnsPacketFlags) (key : Option (List Nat))
    (encData : List Nat) : Except PyExc DecryptedData :=
  match (if f.encrypt_status = 1 then Except.ok encData else aesEcbDecryptPy key encData) with
  | .error e => .error e
  | .ok decrypted => decryptedToDict f decrypted

/-- `GemnsPacket.decrypt_payload` with its internal `except` clause:
a caught exception becomes `None`. -/
def decrypt_payload (f : GemnsPacketFlags) (key : Option (List Nat))
    (encData : List Nat) : Option DecryptedData :=
  match decrypt_payload_exc f key encData with
  | .ok d => some d
  | .error _ => none

/-- The device-type-specific boolean key that `parse_sensor_data` adds to
its result dictionary. -/
inductive SensorBool
  | leak_detected (b : Bool)
  | vibration_detected (b : Bool)
  | switch_on (b : Bool)
  | button_pressed (b : Bool)
deriving DecidableEq

/-- The dictionary returned by `parse_sensor_data`. The `event_counter`,
`sensor_event` and boolean keys are only present for known device types. -/
structure SensorData where
  device_type : Nat
  event_counter_lsb : Nat
  payload_length : Nat
  encrypt_status : Nat
  power_status : Nat
  event_counter : Option Nat
  sensor_event : Option Nat
  flag : Option SensorBool
deriving DecidableEq

/-- `GemnsPacket.parse_sensor_data`: dispatch on the little-endian 16-bit
device type, guarded by `len(payload) >= 4`. `struct.unpack` raises
`struct.error` when given the wrong number of bytes. -/
def parse_sensor_data_exc (d : DecryptedData) : Except PyExc SensorData :=
  match pyUnpackLE 2 d.device_type with
  | .error e => .error e
  | .ok device_type =>
    let payload := d.payload
    let base : SensorData :=
      { device_type := device_type
        event_counter_lsb := d.event_counter_lsb
        payload_length := d.payload_length
        encrypt_status := d.encrypt_status
        power_status := d.power_status
        event_counter := none
        sensor_event := none
        flag := none }
    if device_type = 4 then
      if 4 ≤ payload.length then
        match pyUnpackLE 4 (payload.take 3 ++ [0]) with
        | .error e => .error e
        | .ok ec =>
            .ok { base with event_counter := some ec, sensor_event := some (payload.getD 3 0),
                            flag := some (SensorBool.leak_detected (payload.getD 3 0 == 4)) }
      else
        .ok { base with event_counter := some 0, sensor_event := some 0,
                        flag := some (SensorBool.leak_detected false) }
    else if device_type = 2 then
      if 4 ≤ payload.length then
        match pyUnpackLE 4 (payload.take 3 ++ [0]) with
        | .error e => .error e
        | .ok ec =>
            .ok { base with event_counter := some ec, sensor_event := some (payload.getD 3 0),
                            flag := some (SensorBool.vibration_detected (payload.getD 3 0 == 1)) }
      else
        .ok { base with event_counter := some 0, sensor_event := some 0,
                        flag := some (SensorBool.vibration_detected false) }
    else if device_type = 3 then
      if 4 ≤ payload.length then
        match pyUnpackLE 4 (payload.take 3 ++ [0]) with
        | .error e => .error e
        | .ok ec =>
            .ok { base with event_counter := some ec, sensor_event := some (payload.getD 3 0),
                            flag := some (SensorBool.switch_on (payload.getD 3 0 == 3)) }
      else
        .ok { base with event_counter := some 0, sensor_event := some 0,
                        flag := some (SensorBool.switch_on false) }
    else if device_type = 0 ∨ device_type = 1 then
      if 4 ≤ payload.length then
        match pyUnpackLE 4 (payload.take 3 ++ [0]) with
        | .error e => .error e
        | .ok ec =>
            .ok { base with event_counter := some ec, sensor_event := some (payload.getD 3 0),
                            flag := some (SensorBool.button_pressed (payload.getD 3 0 == 0)) }
      else
        .ok { base with event_counter := some 0, sensor_event := some 0,
                        flag := some (SensorBool.button_pressed false) }
    else
      .ok base

/-- `GemnsPacket`: the parsed 18-byte frame. -/
structure GemnsPacket where
  raw_data : List Nat
  company_id : Nat
  flags : GemnsPacketFlags
  encrypted_data : GemnsEncryptedData
  crc : Nat
deriving DecidableEq

/-- The `GemnsPacket` built by `__init__` once the length check has passed:
flags from byte 0, encrypted block from bytes 1..16, CRC from byte 17. -/
def mkPacket (raw : List Nat) : GemnsPacket :=
  { raw_data := raw
    company_id := COMPANY_ID
    flags := GemnsPacketFlags.make (raw.getD 0 0)
    encrypted_data := GemnsEncryptedData.ofBytes ((raw.drop 1).take 16)
    crc := raw.getD 17 0 }

/-- `GemnsPacket.__init__`: raises `ValueError` for inputs shorter than
`PACKET_LENGTH`. -/
def GemnsPacket.make (raw : List Nat) : Except PyExc GemnsPacket :=
  if raw.length < PACKET_LENGTH then .error .valueError
  else
    match GemnsEncryptedData.make ((raw.drop 1).take 16) with
    | .error e => .error e
    | .ok enc =>
        .ok { raw_data := raw
              company_id := COMPANY_ID
              flags := GemnsPacketFlags.make (raw.getD 0 0)
              encrypted_data := enc
              crc := raw.getD 17 0 }

/-- `GemnsPacket.is_valid_company_id`. -/
def is_valid_company_id (p : GemnsPacket) : Bool := p.company_id == COMPANY_ID

/-- One byte of `GemnsPacket._calculate_crc8`: XOR in the byte, then eight
MSB-first conditional shift-and-XOR steps with polynomial 0x07, masked to
8 bits. -/
def crc8Byte (crc b : Nat) : Nat :=
  Nat.iterate
    (fun c => if c &&& 0x80 ≠ 0 then ((c <<< 1) ^^^ 0x07) &&& 0xFF else (c <<< 1) &&& 0xFF)
    8 (crc ^^^ b)

/-- `GemnsPacket._calculate_crc8` with initial value 0x00. -/
def _calculate_crc8 (data : List Nat) : Nat := data.foldl crc8Byte 0x00

/-- `GemnsPacket.validate_crc`: prepend the little-endian company-identifier
bytes to `raw_data`, compute CRC-8 over everything except the last byte of
that reconstruction, compare against the received CRC byte. -/
def validate_crc (p : GemnsPacket) : Bool :=
  let full_packet := companyIdBytes ++ p.raw_data
  let data_to_check := full_packet.dropLast
  _calculate_crc8 data_to_check == p.crc

/-- The dictionary returned by `parse_gems_packet`. `decrypted` models the
`decrypted_data` and `sensor_data` keys, which are only ever added together. -/
structure ParseResult where
  company_id : Nat
  flags : GemnsPacketFlags
  crc : Nat
  decrypted : Option (DecryptedData × SensorData)
deriving DecidableEq

/-- `parse_gems_packet`'s call of `decrypt_payload` seen at the exception
level: `decrypt_payload`'s own `except` clause absorbs the caught exception
classes into `None` and re-raises everything else. -/
def decryptCatch (r : Except PyExc DecryptedData) : Except PyExc (Option DecryptedData) :=
  match r with
  | .ok d => .ok (some d)
  | .error e => if pyCaught e then .ok none else .error e

/-- Python truthiness of the optional `decryption_key` argument
(`if decryption_key:`): `None` and empty bytes are falsy. -/
def keyTruthy : Option (List Nat) → Bool
  | none => false
  | some k => !k.isEmpty

/-- The `try` body of `parse_gems_packet`: frame parsing, company-identifier
check, CRC validation, then (given a truthy key) decryption and sensor
decoding; `.ok none` is an explicit `return None`. -/
def parseGemsPacketCore (raw : List Nat) (key : Option (List Nat)) :
    Except PyExc (Option ParseResult) :=
  match GemnsPacket.make raw with
  | .error e => .error e
  | .ok pkt =>
    if is_valid_company_id pkt = false then .ok none
    else if validate_crc pkt = false then .ok none
    else
      let result : ParseResult :=
        { company_id := pkt.company_id, flags := pkt.flags, crc := pkt.crc, decrypted := none }
      if keyTruthy key then
        match decryptCatch (decrypt_payload_exc pkt.flags key pkt.encrypted_data.data_bytes) with
        | .error e => .error e
        | .ok none => .ok (some result)
        | .ok (some d) =>
          match parse_sensor_data_exc d with
          | .error e => .error e
          | .ok s => .ok (some { result with decrypted := some (d, s) })
      else .ok (some result)

/-- `parse_gems_packet`: the `try` body with caught exceptions mapped to
`None`. -/
def parse_gems_packet (raw : List Nat) (key : Option (List Nat)) : Option ParseResult :=
  match parseGemsPacketCore raw key with
  | .ok r => r
  | .error _ => none

/-! ### Concrete inputs used as witnesses and counterexamples -/

/-- A 16-byte plaintext block: srcId `01 02 03`, nwkId `0x0504`, firmware
byte `0x10`, device type `4` (leak sensor), payload `01 00 00 04 ...`
(event counter 1, event code 4). -/
def B0 : List Nat :=
  [0x01, 0x02, 0x03, 0x04, 0x05, 0x10, 0x04, 0x00, 0x01, 0x00, 0x00, 0x04, 0x00, 0x00, 0x00, 0x00]

/-- The same block with device type `5` (outside the known set). -/
def B5 : List Nat :=
  [0x01, 0x02, 0x03, 0x04, 0x05, 0x10, 0x05, 0x00, 0x01, 0x00, 0x00, 0x04, 0x00, 0x00, 0x00, 0x00]

/-- A cleartext-flagged 18-byte packet carrying `B0` whose CRC byte (210)
makes `validate_crc` succeed. -/
def Pclear : List Nat := 0x01 :: B0 ++ [210]

/-- An encrypted-flagged 18-byte packet carrying `B0` whose CRC byte (220)
makes `validate_crc` succeed. -/
def Penc : List Nat := 0x00 :: B0 ++ [220]

/-- The decrypted-data dictionary for `Pclear`'s block. -/
def d0 : DecryptedData := mkDecryptedDict (GemnsPacketFlags.make 1) B0

/-- A decrypted-data dictionary whose `payload_length` flags field is 0 while
the payload itself still holds 8 bytes (as it always does). -/
def d1 : DecryptedData := mkDecryptedDict (GemnsPacketFlags.make 0) B0

/-- A decrypted-data dictionary with unknown device type 5. -/
def d2 : DecryptedData := mkDecryptedDict (GemnsPacketFlags.make 1) B5

/-- A decrypted-data dictionary for a known device type whose payload list
holds fewer than 4 bytes. -/
def dQ : DecryptedData :=
  { src_id := 0
    nwk_id := 0
    fw_version := 0
    firmware_version := "0.0"
    device_type := [0x04, 0x00]
    payload := []
    event_counter_lsb := 0
    payload_length := 0
    encrypt_status := 1
    power_status := 0 }

/-- The sensor-data dictionary decoded from `d0`. -/
def s0 : SensorData :=
  { device_type := 4
    event_counter_lsb := 0
    payload_length := 0
    encrypt_status := 1
    power_status := 0
    event_counter := some 1
    sensor_event := some 4
    flag := some (SensorBool.leak_detected true) }

/-- The full parse result for `Pclear` with a (truthy, unused) key. -/
def r0 : ParseResult :=
  { company_id := COMPANY_ID
    flags := GemnsPacketFlags.make 1
    crc := 210
    decrypted := some (d0, s0) }

/-- The parse result for `Penc` when decryption fails: the frame-level
fields are still returned, with no decrypted or sensor data attached. -/
def rEnc : ParseResult :=
  { company_id := COMPANY_ID
    flags := GemnsPacketFlags.make 0
    crc := 220
    decrypted := none }

/-- A 24-byte key (valid for the AES cipher, which accepts AES-192 keys). -/
def k24 : List Nat := List.range 24

/-! ### Structural lemmas about the AES model -/

theorem takeWords_length : ∀ (n : Nat) (l : List Nat), (takeWords n l).length = n
  | 0, _ => rfl
  | n + 1, l => by simp [takeWords, takeWords_length n]

theorem takeWords_getD : ∀ (n i : Nat) (l : List Nat), i < n →
    (takeWords n l).getD i [] = (l.drop (4 * i)).take 4
  | 0, i, _, h => absurd h (Nat.not_lt_zero i)
  | _ + 1, 0, l, _ => by simp [takeWords]
  | n + 1, i + 1, l, h => by
      have ih := takeWords_getD n i (l.drop 4) (Nat.lt_of_succ_lt_succ h)
      simp only [takeWords, List.getD_cons_succ, ih, List.drop_drop]
      congr 2
      omega

theorem keyExpandAux_append : ∀ (nk n : Nat) (ws : List (List Nat)),
    ∃ t, keyExpandAux nk n ws = ws ++ t
  | _, 0, ws => ⟨[], (List.append_nil ws).symm⟩
  | nk, n + 1, ws => by
      obtain ⟨t, ht⟩ := keyExpandAux_append nk n (ws ++ [nextWord nk ws])
      exact ⟨nextWord nk ws :: t, by simp [keyExpandAux, ht]⟩

/-- For any cipher-accepted key length, round key 0 is 16 bytes: its four
words are the first four words of the raw key. -/
theorem roundKey_zero_length (key : List Nat)
    (h : key.length = 16 ∨ key.length = 24 ∨ key.length = 32) :
    (roundKey (keyExpansion key) 0).length = 16 := by
  have h16 : 16 ≤ key.length := by rcases h with h | h | h <;> omega
  have hnk : 4 ≤ key.length / 4 := by omega
  have hcase : ∀ i, i < 4 → ((keyExpansion key).getD i []).length = 4 := by
    intro i hi
    obtain ⟨t, ht⟩ :=
      keyExpandAux_append (key.length / 4) (4 * (key.length / 4 + 6 + 1) - key.length / 4)
        (takeWords (key.length / 4) key)
    have hlt : i < (takeWords (key.length / 4) key).length := by
      rw [takeWords_length]; omega
    rw [keyExpansion, ht, List.getD_append _ _ _ _ hlt,
      takeWords_getD _ i key (by omega), List.length_take, List.length_drop]
    omega
  have h0 := hcase 0 (by omega)
  have h1 := hcase 1 (by omega)
  have h2 := hcase 2 (by omega)
  have h3 := hcase 3 (by omega)
  simp only [roundKey, List.length_append, Nat.mul_zero, Nat.zero_add]
  omega

theorem invShiftRows_length (s : List Nat) : (invShiftRows s).length = 16 := rfl

theorem aesDecryptBlock_length (key block : List Nat)
    (h : key.length = 16 ∨ key.length = 24 ∨ key.length = 32) :
    (aesDecryptBlock key block).length = 16 := by
  have hk := roundKey_zero_length key h
  simp only [aesDecryptBlock, addRoundKey, List.length_zipWith, invSubBytes,
    List.length_map, invShiftRows_length, hk]
  omega

theorem aesEcbDecrypt_single (key block : List Nat) (hb : block.length = 16) :
    aesEcbDecrypt key block = aesDecryptBlock key block := by
  have : block.length / 16 = 1 := by omega
  simp [aesEcbDecrypt, this, blocksOf, List.take_of_length_le (le_of_eq hb)]

/-! ### Lemmas about the decryption stage -/

theorem encMake_ok (data : List Nat) (h : data.length = 16) :
    GemnsEncryptedData.make data = .ok (GemnsEncryptedData.ofBytes data) := by
  simp [GemnsEncryptedData.make, ENCRYPTED_DATA_SIZE, h]

theorem encMake_err (data : List Nat) (h : data.length ≠ 16) :
    GemnsEncryptedData.make data = .error .valueError := by
  simp [GemnsEncryptedData.make, ENCRYPTED_DATA_SIZE, h]

theorem leVal_append_zero (l : List Nat) : leVal (l ++ [0]) = leVal l := by
  simp [leVal, List.foldr_append]

theorem decryptedToDict_ok (f : GemnsPacketFlags) (b : List Nat) (h : b.length = 16) :
    decryptedToDict f b = .ok (mkDecryptedDict f b) := by
  have h3 : (b.take 3 ++ [0]).length = 4 := by
    simp [List.length_append, List.length_take]; omega
  have h2 : ((b.drop 3).take 2).length = 2 := by
    simp [List.length_take, List.length_drop]; omega
  simp [decryptedToDict, encMake_ok b h, GemnsEncryptedData.ofBytes, pyUnpackLE, h3, h2,
    mkDecryptedDict]

theorem decryptedToDict_err (f : GemnsPacketFlags) (b : List Nat) (h : b.length ≠ 16) :
    decryptedToDict f b = .error .valueError := by
  simp [decryptedToDict, encMake_err b h]

/-- Full characterization of `decrypt_payload`'s `try` body on 16-byte
blocks: passthrough for cleartext, `TypeError` with no key, AES decryption
for cipher-accepted key sizes, `ValueError` otherwise. -/
theorem decrypt_payload_exc_eq (f : GemnsPacketFlags) (key : Option (List Nat))
    (enc : List Nat) (h : enc.length = 16) :
    decrypt_payload_exc f key enc =
      if f.encrypt_status = 1 then Except.ok (mkDecryptedDict f enc)
      else
        match key with
        | none => Except.error PyExc.typeError
        | some k =>
            if k.length = 16 ∨ k.length = 24 ∨ k.length = 32 then
              Except.ok (mkDecryptedDict f (aesDecryptBlock k enc))
            else Except.error PyExc.valueError := by
  by_cases hes : f.encrypt_status = 1
  · simp [decrypt_payload_exc, hes, decryptedToDict_ok f enc h]
  · cases key with
    | none => simp [decrypt_payload_exc, hes, aesEcbDecryptPy]
    | some k =>
      by_cases hk : k.length = 16 ∨ k.length = 24 ∨ k.length = 32
      · have hm : enc.length % 16 = 0 := by omega
        have hlen : (aesDecryptBlock k enc).length = 16 := aesDecryptBlock_length k enc hk
        simp [decrypt_payload_exc, hes, aesEcbDecryptPy, hk, hm,
          aesEcbDecrypt_single k enc h, decryptedToDict_ok f _ hlen]
      · simp [decrypt_payload_exc, hes, aesEcbDecryptPy, hk]

theorem decryptedToDict_err_shape (f : GemnsPacketFlags) (b : List Nat) (e : PyExc) :
    decryptedToDict f b = .error e → e = .valueError := by
  by_cases h : b.length = 16
  · rw [decryptedToDict_ok f b h]; intro hc; cases hc
  · rw [decryptedToDict_err f b h]; intro hc; cases hc; rfl

/-- Every exception the decryption `try` body can raise is in the caught
set (`ValueError` or `TypeError`). -/
theorem decrypt_exc_caught (f : GemnsPacketFlags) (key : Option (List Nat))
    (enc : List Nat) (e : PyExc) :
    decrypt_payload_exc f key enc = .error e → pyCaught e = true := by
  intro he
  unfold decrypt_payload_exc at he
  split at he
  · rename_i e' hsc
    split at hsc
    · cases hsc
    · unfold aesEcbDecryptPy at hsc
      split at hsc
      · cases hsc; cases he; rfl
      · split at hsc
        · split at hsc
          · cases hsc
          · cases hsc; cases he; rfl
        · cases hsc; cases he; rfl
  · have := decryptedToDict_err_shape f _ e he
    subst this; rfl

theorem decrypt_exc_ok_shape (f : GemnsPacketFlags) (key : Option (List Nat))
    (enc : List Nat) (d : DecryptedData) :
    decrypt_payload_exc f key enc = .ok d → ∃ b, b.length = 16 ∧ d = mkDecryptedDict f b := by
  intro hok
  unfold decrypt_payload_exc at hok
  split at hok
  · cases hok
  · rename_i decrypted _
    by_cases hb : decrypted.length = 16
    · rw [decryptedToDict_ok f decrypted hb] at hok
      cases hok
      exact ⟨decrypted, hb, rfl⟩
    · rw [decryptedToDict_err f decrypted hb] at hok
      cases hok

theorem mkDict_lengths (f : GemnsPacketFlags) (b : List Nat) (h : b.length = 16) :
    (mkDecryptedDict f b).device_type.length = 2 ∧ (mkDecryptedDict f b).payload.length = 8 := by
  simp [mkDecryptedDict, List.length_take, List.length_drop, h]

theorem decrypt_payload_some_shape (f : GemnsPacketFlags) (key : Option (List Nat))
    (enc : List Nat) (d : DecryptedData) :
    decrypt_payload f key enc = some d →
    d.device_type.length = 2 ∧ d.payload.length = 8 := by
  intro hs
  unfold decrypt_payload at hs
  cases hexc : decrypt_payload_exc f key enc with
  | ok d2 =>
      rw [hexc] at hs
      cases hs
      obtain ⟨b, hb, hd⟩ := decrypt_exc_ok_shape f key enc d hexc
      rw [hd]
      exact mkDict_lengths f b hb
  | error e =>
      rw [hexc] at hs
      cases hs

/-! ### Lemmas about the sensor-decoding stage -/

theorem unpack2_ok (l : List Nat) (h : l.length = 2) : pyUnpackLE 2 l = .ok (leVal l) := by
  simp [pyUnpackLE, h]

theorem unpack4_pad_ok (p : List Nat) (hp : 3 ≤ p.length) :
    pyUnpackLE 4 (p.take 3 ++ [0]) = .ok (leVal (p.take 3)) := by
  have hl : (p.take 3 ++ [0]).length = 4 := by
    simp [List.length_append, List.length_take]; omega
  simp [pyUnpackLE, hl, leVal_append_zero]

theorem sensor_exc_ok (d : DecryptedData) (h2 : d.device_type.length = 2) :
    ∃ s, parse_sensor_data_exc d = .ok s := by
  have hu := unpack2_ok d.device_type h2
  unfold parse_sensor_data_exc
  rw [hu]
  dsimp only
  by_cases hp : 4 ≤ d.payload.length
  · have hu4 := unpack4_pad_ok d.payload (by omega)
    split_ifs <;> simp [hu4]
  · split_ifs <;> simp

/-- The four known-device-type branches with at least 4 payload bytes:
event counter from `payload[0:3]` (little-endian, zero-padded), event code
from `payload[3]`, and the exact-match boolean. -/
theorem sensor_exc_known (d : DecryptedData) (h2 : d.device_type.length = 2)
    (hp : 4 ≤ d.payload.length) :
    (leVal d.device_type = 4 →
      parse_sensor_data_exc d = .ok
        { device_type := 4, event_counter_lsb := d.event_counter_lsb,
          payload_length := d.payload_length, encrypt_status := d.encrypt_status,
          power_status := d.power_status,
          event_counter := some (leVal (d.payload.take 3)),
          sensor_event := some (d.payload.getD 3 0),
          flag := some (SensorBool.leak_detected (d.payload.getD 3 0 == 4)) })
    ∧ (leVal d.device_type = 2 →
      parse_sensor_data_exc d = .ok
        { device_type := 2, event_counter_lsb := d.event_counter_lsb,
          payload_length := d.payload_length, encrypt_status := d.encrypt_status,
          power_status := d.power_status,
          event_counter := some (leVal (d.payload.take 3)),
          sensor_event := some (d.payload.getD 3 0),
          flag := some (SensorBool.vibration_detected (d.payload.getD 3 0 == 1)) })
    ∧ (leVal d.device_type = 3 →
      parse_sensor_data_exc d = .ok
        { device_type := 3, event_counter_lsb := d.event_counter_lsb,
          payload_length := d.payload_length, encrypt_status := d.encrypt_status,
          power_status := d.power_status,
          event_counter := some (leVal (d.payload.take 3)),
          sensor_event := some (d.payload.getD 3 0),
          flag := some (SensorBool.switch_on (d.payload.getD 3 0 == 3)) })
    ∧ ((leVal d.device_type = 0 ∨ leVal d.device_type = 1) →
      parse_sensor_data_exc d = .ok
        { device_type := leVal d.device_type, event_counter_lsb := d.event_counter_lsb,
          payload_length := d.payload_length, encrypt_status := d.encrypt_status,
          power_status := d.power_status,
          event_counter := some (leVal (d.payload.take 3)),
          sensor_event := some (d.payload.getD 3 0),
          flag := some (SensorBool.button_pressed (d.payload.getD 3 0 == 0)) }) := by
  have hu := unpack2_ok d.device_type h2
  have hu4 := unpack4_pad_ok d.payload (by omega)
  refine ⟨?_, ?_, ?_, ?_⟩
  · intro ht
    unfold parse_sensor_data_exc
    rw [hu]
    dsimp only
    simp [ht, hp, hu4]
  · intro ht
    unfold parse_sensor_data_exc
    rw [hu]
    dsimp only
    simp [ht, hp, hu4]
  · intro ht
    unfold parse_sensor_data_exc
    rw [hu]
    dsimp only
    simp [ht, hp, hu4]
  · intro ht
    unfold parse_sensor_data_exc
    rw [hu]
    dsimp only
    rcases ht with ht | ht <;> simp [ht, hp, hu4]

/-- The four known-device-type branches with fewer than 4 payload bytes:
the event is quiescent (counter 0, code 0, boolean false). -/
theorem sensor_exc_quiescent (d : DecryptedData) (h2 : d.device_type.length = 2)
    (hp : d.payload.length < 4) :
    (leVal d.device_type = 4 →
      parse_sensor_data_exc d = .ok
        { device_type := 4, event_counter_lsb := d.event_counter_lsb,
          payload_length := d.payload_length, encrypt_status := d.encrypt_status,
          power_status := d.power_status,
          event_counter := some 0, sensor_event := some 0,
          flag := some (SensorBool.leak_detected false) })
    ∧ (leVal d.device_type = 2 →
      parse_sensor_data_exc d = .ok
        { device_type := 2, event_counter_lsb := d.event_counter_lsb,
          payload_length := d.payload_length, encrypt_status := d.encrypt_status,
          power_status := d.power_status,
          event_counter := some 0, sensor_event := some 0,
          flag := some (SensorBool.vibration_detected false) })
    ∧ (leVal d.device_type = 3 →
      parse_sensor_data_exc d = .ok
        { device_type := 3, event_counter_lsb := d.event_counter_lsb,
          payload_length := d.payload_length, encrypt_status := d.encrypt_status,
          power_status := d.power_status,
          event_counter := some 0, sensor_event := some 0,
          flag := some (SensorBool.switch_on false) })
    ∧ ((leVal d.device_type = 0 ∨ leVal d.device_type = 1) →
      parse_sensor_data_exc d = .ok
        { device_type := leVal d.device_type, event_counter_lsb := d.event_counter_lsb,
          payload_length := d.payload_length, encrypt_status := d.encrypt_status,
          power_status := d.power_status,
          event_counter := some 0, sensor_event := some 0,
          flag := some (SensorBool.button_pressed false) }) := by
  have hu := unpack2_ok d.device_type h2
  have hp4 : ¬ 4 ≤ d.payload.length := by omega
  refine ⟨?_, ?_, ?_, ?_⟩
  · intro ht
    unfold parse_sensor_data_exc
    rw [hu]
    dsimp only
    simp [ht, hp4]
  · intro ht
    unfold parse_sensor_data_exc
    rw [hu]
    dsimp only
    simp [ht, hp4]
  · intro ht
    unfold parse_sensor_data_exc
    rw [hu]
    dsimp only
    simp [ht, hp4]
  · intro ht
    unfold parse_sensor_data_exc
    rw [hu]
    dsimp only
    rcases ht with ht | ht <;> simp [ht, hp4]

/-- Device types outside the known set: no event counter, no event code, no
boolean is attached — the dispatch falls through to the bare dictionary. -/
theorem sensor_exc_unknown (d : DecryptedData) (h2 : d.device_type.length = 2)
    (hk4 : leVal d.device_type ≠ 4) (hk2 : leVal d.device_type ≠ 2)
    (hk3 : leVal d.device_type ≠ 3) (hk0 : leVal d.device_type ≠ 0)
    (hk1 : leVal d.device_type ≠ 1) :
    parse_sensor_data_exc d = .ok
      { device_type := leVal d.device_type, event_counter_lsb := d.event_counter_lsb,
        payload_length := d.payload_length, encrypt_status := d.encrypt_status,
        power_status := d.power_status,
        event_counter := none, sensor_event := none, flag := none } := by
  have hu := unpack2_ok d.device_type h2
  unfold parse_sensor_data_exc
  rw [hu]
  dsimp only
  simp [hk4, hk2, hk3, hk0, hk1]

/-- The `payload_length` flags field is pure pass-through: changing it
changes only the `payload_length` field of the decoded sensor dictionary. -/
theorem sensor_pl_irrel (d : DecryptedData) (pl : Nat) :
    parse_sensor_data_exc { d with payload_length := pl } =
      Except.map (fun s => { s with payload_length := pl }) (parse_sensor_data_exc d) := by
  unfold parse_sensor_data_exc
  dsimp only
  cases hu : pyUnpackLE 2 d.device_type with
  | error e => rfl
  | ok dt =>
      dsimp only
      split_ifs <;>
        first
          | rfl
          | (cases hu4 : pyUnpackLE 4 (d.payload.take 3 ++ [0]) <;> rfl)

/-! ### Lemmas about the orchestrator -/

theorem packet_make_err (raw : List Nat) (h : raw.length < 18) :
    GemnsPacket.make raw = .error .valueError := by
  simp [GemnsPacket.make, PACKET_LENGTH, h]

theorem packet_make_ok (raw : List Nat) (h : 18 ≤ raw.length) :
    GemnsPacket.make raw = .ok (mkPacket raw) := by
  have hlt : ¬ raw.length < PACKET_LENGTH := by simp [PACKET_LENGTH]; omega
  have hsl : ((raw.drop 1).take 16).length = 16 := by
    simp [List.length_take, List.length_drop]; omega
  unfold GemnsPacket.make
  simp only [hlt, if_false, encMake_ok _ hsl]
  rfl

/-- The company-identifier check can never fail: the field is the constant
it is compared against. -/
theorem company_id_always_valid (raw : List Nat) :
    is_valid_company_id (mkPacket raw) = true := by
  simp [is_valid_company_id, mkPacket]

/-- `decrypt_payload`'s internal `except` clause absorbs every exception its
`try` body can raise, so the orchestrator sees `.ok` of the optional
dictionary. -/
theorem decryptCatch_eq (f : GemnsPacketFlags) (key : Option (List Nat)) (enc : List Nat) :
    decryptCatch (decrypt_payload_exc f key enc) = .ok (decrypt_payload f key enc) := by
  cases hexc : decrypt_payload_exc f key enc with
  | ok d => simp [decryptCatch, decrypt_payload, hexc]
  | error e =>
      have hc := decrypt_exc_caught f key enc e hexc
      simp [decryptCatch, decrypt_payload, hexc, hc]

theorem core_short (raw : List Nat) (key : Option (List Nat)) (h : raw.length < 18) :
    parseGemsPacketCore raw key = .error .valueError := by
  simp [parseGemsPacketCore, packet_make_err raw h]

theorem core_badcrc (raw : List Nat) (key : Option (List Nat)) (h : 18 ≤ raw.length)
    (hcrc : validate_crc (mkPacket raw) = false) :
    parseGemsPacketCore raw key = .ok none := by
  unfold parseGemsPacketCore
  rw [packet_make_ok raw h]
  dsimp only
  simp only [company_id_always_valid raw, hcrc]
  simp

theorem core_nokey (raw : List Nat) (key : Option (List Nat)) (h : 18 ≤ raw.length)
    (hcrc : validate_crc (mkPacket raw) = true) (hkt : keyTruthy key = false) :
    parseGemsPacketCore raw key =
      .ok (some { company_id := COMPANY_ID, flags := GemnsPacketFlags.make (raw.getD 0 0),
                  crc := raw.getD 17 0, decrypted := none }) := by
  unfold parseGemsPacketCore
  rw [packet_make_ok raw h]
  dsimp only
  simp only [company_id_always_valid raw, hcrc, hkt]
  simp [mkPacket]

theorem core_keyfail (raw : List Nat) (key : Option (List Nat)) (h : 18 ≤ raw.length)
    (hcrc : validate_crc (mkPacket raw) = true) (hkt : keyTruthy key = true)
    (hd : decrypt_payload (GemnsPacketFlags.make (raw.getD 0 0)) key ((raw.drop 1).take 16) = none) :
    parseGemsPacketCore raw key =
      .ok (some { company_id := COMPANY_ID, flags := GemnsPacketFlags.make (raw.getD 0 0),
                  crc := raw.getD 17 0, decrypted := none }) := by
  have hf : (mkPacket raw).flags = GemnsPacketFlags.make (raw.getD 0 0) := rfl
  have he : (mkPacket raw).encrypted_data.data_bytes = (raw.drop 1).take 16 := rfl
  unfold parseGemsPacketCore
  rw [packet_make_ok raw h]
  dsimp only
  simp only [company_id_always_valid raw, hcrc, hkt, hf, he, decryptCatch_eq, hd]
  simp [mkPacket]

theorem core_keyok (raw : List Nat) (key : Option (List Nat)) (h : 18 ≤ raw.length)
    (hcrc : validate_crc (mkPacket raw) = true) (hkt : keyTruthy key = true) (d : DecryptedData)
    (hd : decrypt_payload (GemnsPacketFlags.make (raw.getD 0 0)) key ((raw.drop 1).take 16) = some d) :
    ∃ s, parse_sensor_data_exc d = .ok s ∧
      parseGemsPacketCore raw key =
        .ok (some { company_id := COMPANY_ID, flags := GemnsPacketFlags.make (raw.getD 0 0),
                    crc := raw.getD 17 0, decrypted := some (d, s) }) := by
  obtain ⟨h2, _⟩ := decrypt_payload_some_shape _ key _ d hd
  obtain ⟨s, hs⟩ := sensor_exc_ok d h2
  refine ⟨s, hs, ?_⟩
  have hf : (mkPacket raw).flags = GemnsPacketFlags.make (raw.getD 0 0) := rfl
  have he : (mkPacket raw).encrypted_data.data_bytes = (raw.drop 1).take 16 := rfl
  unfold parseGemsPacketCore
  rw [packet_make_ok raw h]
  dsimp only
  simp only [company_id_always_valid raw, hcrc, hkt, hf, he, decryptCatch_eq, hd, hs]
  simp [mkPacket]

/-- On an exactly-18-byte input the checked span of `validate_crc` is the
company-identifier bytes followed by the first 17 received bytes. -/
theorem validate_crc_take17 (raw : List Nat) (h : raw.length = 18) :
    validate_crc (mkPacket raw) =
      (_calculate_crc8 (companyIdBytes ++ raw.take 17) == raw.getD 17 0) := by
  have hne : raw ≠ [] := by intro he; rw [he] at h; simp at h
  have h1 : (companyIdBytes ++ raw).dropLast = companyIdBytes ++ raw.dropLast := by
    rw [List.dropLast_append]
    simp [List.isEmpty_iff, hne]
  have h2 : raw.dropLast = raw.take 17 := by rw [List.dropLast_eq_take, h]
  unfold validate_crc
  dsimp only [mkPacket]
  rw [h1, h2]

/-- Inversion: whenever the orchestrator's result carries decoded data, the
input was long enough, the CRC check passed, a truthy key was supplied, the
decryption stage succeeded on bytes 1..16 of the input, and the sensor
dictionary is the decode of the decrypted dictionary. -/
theorem parse_decrypted_inv (raw : List Nat) (key : Option (List Nat)) (r : ParseResult)
    (d : DecryptedData) (s : SensorData)
    (hp : parse_gems_packet raw key = some r) (hds : r.decrypted = some (d, s)) :
    18 ≤ raw.length ∧ validate_crc (mkPacket raw) = true ∧ keyTruthy key = true
    ∧ decrypt_payload (GemnsPacketFlags.make (raw.getD 0 0)) key ((raw.drop 1).take 16) = some d
    ∧ parse_sensor_data_exc d = .ok s := by
  by_cases h : raw.length < 18
  · rw [show parse_gems_packet raw key = none by
      simp [parse_gems_packet, core_short raw key h]] at hp
    cases hp
  · push_neg at h
    cases hcrc : validate_crc (mkPacket raw) with
    | false =>
        rw [show parse_gems_packet raw key = none by
          simp [parse_gems_packet, core_badcrc raw key h hcrc]] at hp
        cases hp
    | true =>
        cases hkt : keyTruthy key with
        | false =>
            have hcore := core_nokey raw key h hcrc hkt
            rw [show parse_gems_packet raw key = some
              { company_id := COMPANY_ID, flags := GemnsPacketFlags.make (raw.getD 0 0),
                crc := raw.getD 17 0, decrypted := none } by
                simp [parse_gems_packet, hcore]] at hp
            cases hp
            cases hds
        | true =>
            cases hd : decrypt_payload (GemnsPacketFlags.make (raw.getD 0 0)) key
                ((raw.drop 1).take 16) with
            | none =>
                have hcore := core_keyfail raw key h hcrc hkt hd
                rw [show parse_gems_packet raw key = some
                  { company_id := COMPANY_ID, flags := GemnsPacketFlags.make (raw.getD 0 0),
                    crc := raw.getD 17 0, decrypted := none } by
                    simp [parse_gems_packet, hcore]] at hp
                cases hp
                cases hds
            | some d2 =>
                obtain ⟨s2, hs2, hcore⟩ := core_keyok raw key h hcrc hkt d2 hd
                rw [show parse_gems_packet raw key = some
                  { company_id := COMPANY_ID, flags := GemnsPacketFlags.make (raw.getD 0 0),
                    crc := raw.getD 17 0, decrypted := some (d2, s2) } by
                    simp [parse_gems_packet, hcore]] at hp
                cases hp
                simp only [Option.some.injEq, Prod.mk.injEq] at hds
                obtain ⟨rfl, rfl⟩ := hds
                exact ⟨h, rfl, rfl, rfl, hs2⟩

/-! ### Claim theorems -/

/-- C1 counterexample: on an encrypted-flagged, CRC-valid packet with a
truthy key of invalid length the decryption stage fails, yet
`parse_gems_packet` returns a result (the frame-level dictionary) rather
than a failure — refuting "whenever any stage fails the caller receives a
failure". -/
theorem c1_counterexample :
    (GemnsPacketFlags.make 0).encrypt_status ≠ 1
    ∧ decrypt_payload (GemnsPacketFlags.make 0) (some [0]) B0 = none
    ∧ parse_gems_packet Penc (some [0]) = some rEnc :=
  ⟨by decide, by decide, by decide⟩

/-- C1 (amended): the orchestrator short-circuits with `None` on format
error and CRC mismatch; after CRC passes it always returns a result whose
decoded/sensor fields are attached only together and only when decryption
succeeded — a decryption failure (or missing key) yields the frame-level
result with no decoded fields, not a failure. -/
theorem c1_orchestrator (raw : List Nat) (key : Option (List Nat)) :
    (raw.length < 18 → parse_gems_packet raw key = none)
    ∧ (18 ≤ raw.length → validate_crc (mkPacket raw) = false →
        parse_gems_packet raw key = none)
    ∧ (18 ≤ raw.length → validate_crc (mkPacket raw) = true →
        ∃ r, parse_gems_packet raw key = some r
          ∧ r.company_id = COMPANY_ID
          ∧ r.flags = GemnsPacketFlags.make (raw.getD 0 0)
          ∧ r.crc = raw.getD 17 0
          ∧ (keyTruthy key = false → r.decrypted = none)
          ∧ (keyTruthy key = true →
              (decrypt_payload (GemnsPacketFlags.make (raw.getD 0 0)) key
                  ((raw.drop 1).take 16) = none → r.decrypted = none)
              ∧ (∀ d, decrypt_payload (GemnsPacketFlags.make (raw.getD 0 0)) key
                    ((raw.drop 1).take 16) = some d →
                  ∃ s, parse_sensor_data_exc d = .ok s ∧ r.decrypted = some (d, s)))) := by
  refine ⟨fun h => ?_, fun h hcrc => ?_, fun h hcrc => ?_⟩
  · simp [parse_gems_packet, core_short raw key h]
  · simp [parse_gems_packet, core_badcrc raw key h hcrc]
  · cases hkt : keyTruthy key with
    | false =>
        refine ⟨{ company_id := COMPANY_ID,
                  flags := GemnsPacketFlags.make (raw.getD 0 0),
                  crc := raw.getD 17 0, decrypted := none },
          by simp [parse_gems_packet, core_nokey raw key h hcrc hkt], rfl, rfl, rfl,
          fun _ => rfl, fun hc => ?_⟩
        cases hc
    | true =>
        cases hd : decrypt_payload (GemnsPacketFlags.make (raw.getD 0 0)) key
            ((raw.drop 1).take 16) with
        | none =>
            refine ⟨{ company_id := COMPANY_ID,
                      flags := GemnsPacketFlags.make (raw.getD 0 0),
                      crc := raw.getD 17 0, decrypted := none },
              by simp [parse_gems_packet, core_keyfail raw key h hcrc hkt hd], rfl, rfl, rfl,
              fun hc => ?_, fun _ => ⟨fun _ => rfl, fun d hd2 => ?_⟩⟩
            · cases hc
            · cases hd2
        | some d =>
            obtain ⟨s, hs, hcore⟩ := core_keyok raw key h hcrc hkt d hd
            refine ⟨{ company_id := COMPANY_ID,
                      flags := GemnsPacketFlags.make (raw.getD 0 0),
                      crc := raw.getD 17 0, decrypted := some (d, s) },
              by simp [parse_gems_packet, hcore], rfl, rfl, rfl,
              fun hc => ?_, fun _ => ⟨fun hn => ?_, fun d2 hd2 => ?_⟩⟩
            · cases hc
            · cases hn
            · cases hd2
              exact ⟨s, hs, rfl⟩

/-- C1 amended witness: the cleartext test packet with a truthy key decodes
end to end. -/
theorem c1_orchestrator_witness :
    ∃ r, parse_gems_packet Pclear (some [1]) = some r
      ∧ r.company_id = COMPANY_ID
      ∧ r.flags = GemnsPacketFlags.make (Pclear.getD 0 0)
      ∧ r.crc = Pclear.getD 17 0
      ∧ (keyTruthy (some [1]) = false → r.decrypted = none)
      ∧ (keyTruthy (some [1]) = true →
          (decrypt_payload (GemnsPacketFlags.make (Pclear.getD 0 0)) (some [1])
              ((Pclear.drop 1).take 16) = none → r.decrypted = none)
          ∧ (∀ d, decrypt_payload (GemnsPacketFlags.make (Pclear.getD 0 0)) (some [1])
                ((Pclear.drop 1).take 16) = some d →
              ∃ s, parse_sensor_data_exc d = .ok s ∧ r.decrypted = some (d, s))) :=
  (c1_orchestrator Pclear (some [1])).2.2 (by decide) (by decide)

/-- C2: for length-18 inputs, CRC validation computes the bit-level CRC-8
over the company-identifier bytes prepended to the first 17 received bytes
and compares it against byte 17; a mismatch makes the decoder return `None`
by a normal return (`.ok none`), not by the `ValueError` used for short
input. -/
theorem c2_crc_validation (raw : List Nat) (key : Option (List Nat)) (h : raw.length = 18) :
    (validate_crc (mkPacket raw)
        = (_calculate_crc8 (companyIdBytes ++ raw.take 17) == raw.getD 17 0))
    ∧ ((_calculate_crc8 (companyIdBytes ++ raw.take 17) == raw.getD 17 0) = false →
        parseGemsPacketCore raw key = .ok none ∧ parse_gems_packet raw key = none) := by
  have hv := validate_crc_take17 raw h
  refine ⟨hv, fun hcrc => ?_⟩
  have hfalse : validate_crc (mkPacket raw) = false := by rw [hv, hcrc]
  have hcore := core_badcrc raw key (by omega) hfalse
  exact ⟨hcore, by simp [parse_gems_packet, hcore]⟩

/-- C2 witness: the cleartext test packet with its CRC byte tampered to 0
is dropped by CRC validation with a normal `None` return. -/
theorem c2_crc_validation_witness :
    parseGemsPacketCore (0x01 :: B0 ++ [0]) none = .ok none
    ∧ parse_gems_packet (0x01 :: B0 ++ [0]) none = none :=
  (c2_crc_validation (0x01 :: B0 ++ [0]) none (by decide)).2 (by decide)

/-- C3: for a decrypted record of a known device type with at least 4
payload bytes, the event counter is the 24-bit little-endian value of
`payload[0:3]`, the event code is `payload[3]`, and each device-type
boolean holds exactly when the event code equals that type's single code. -/
theorem c3_event_decoding (d : DecryptedData) (h2 : d.device_type.length = 2)
    (hp : 4 ≤ d.payload.length) (hk : leVal d.device_type ∈ ([0, 1, 2, 3, 4] : List Nat)) :
    ∃ s, parse_sensor_data_exc d = .ok s
      ∧ s.event_counter = some (leVal (d.payload.take 3))
      ∧ s.sensor_event = some (d.payload.getD 3 0)
      ∧ (leVal d.device_type = 4 →
          s.flag = some (SensorBool.leak_detected (d.payload.getD 3 0 == 4)))
      ∧ (leVal d.device_type = 2 →
          s.flag = some (SensorBool.vibration_detected (d.payload.getD 3 0 == 1)))
      ∧ (leVal d.device_type = 3 →
          s.flag = some (SensorBool.switch_on (d.payload.getD 3 0 == 3)))
      ∧ ((leVal d.device_type = 0 ∨ leVal d.device_type = 1) →
          s.flag = some (SensorBool.button_pressed (d.payload.getD 3 0 == 0))) := by
  have hks := sensor_exc_known d h2 hp
  simp only [List.mem_cons, List.not_mem_nil, or_false] at hk
  rcases hk with ht | ht | ht | ht | ht
  · exact ⟨_, hks.2.2.2 (Or.inl ht), rfl, rfl, fun hx => by omega, fun hx => by omega,
      fun hx => by omega, fun _ => rfl⟩
  · exact ⟨_, hks.2.2.2 (Or.inr ht), rfl, rfl, fun hx => by omega, fun hx => by omega,
      fun hx => by omega, fun _ => rfl⟩
  · exact ⟨_, hks.2.1 ht, rfl, rfl, fun hx => by omega, fun _ => rfl, fun hx => by omega,
      fun hx => by rcases hx with hx | hx <;> omega⟩
  · exact ⟨_, hks.2.2.1 ht, rfl, rfl, fun hx => by omega, fun hx => by omega, fun _ => rfl,
      fun hx => by rcases hx with hx | hx <;> omega⟩
  · exact ⟨_, hks.1 ht, rfl, rfl, fun _ => rfl, fun hx => by omega, fun hx => by omega,
      fun hx => by rcases hx with hx | hx <;> omega⟩

/-- C3 witness: the leak-sensor record of the reference block decodes to
counter 1, code 4, `leak_detected = true`. -/
theorem c3_event_decoding_witness :
    ∃ s, parse_sensor_data_exc d0 = .ok s
      ∧ s.event_counter = some (leVal (d0.payload.take 3))
      ∧ s.sensor_event = some (d0.payload.getD 3 0)
      ∧ (leVal d0.device_type = 4 →
          s.flag = some (SensorBool.leak_detected (d0.payload.getD 3 0 == 4)))
      ∧ (leVal d0.device_type = 2 →
          s.flag = some (SensorBool.vibration_detected (d0.payload.getD 3 0 == 1)))
      ∧ (leVal d0.device_type = 3 →
          s.flag = some (SensorBool.switch_on (d0.payload.getD 3 0 == 3)))
      ∧ ((leVal d0.device_type = 0 ∨ leVal d0.device_type = 1) →
          s.flag = some (SensorBool.button_pressed (d0.payload.getD 3 0 == 0))) :=
  c3_event_decoding d0 (by decide) (by decide) (by decide)

/-- C4 counterexample: a 24-byte key is not 16 bytes long, yet decryption of
an encrypted-flagged block succeeds (the cipher accepts AES-192 keys) —
refuting "fails exactly when ... a key of wrong length was supplied" under
the spec's 16-byte key model. -/
theorem c4_counterexample :
    (GemnsPacketFlags.make 0).encrypt_status = 0
    ∧ k24.length = 24
    ∧ decrypt_payload (GemnsPacketFlags.make 0) (some k24) B0 ≠ none := by
  refine ⟨rfl, by decide, ?_⟩
  have heq := decrypt_payload_exc_eq (GemnsPacketFlags.make 0) (some k24) B0 (by decide)
  rw [if_neg (by decide)] at heq
  unfold decrypt_payload
  rw [heq]
  simp [k24]

/-- C4 (amended): on 16-byte blocks, a cleartext flag makes the decryptor
return the record of the unchanged input block for any key; an encrypted
flag decrypts with AES when the key has one of the cipher-accepted lengths
16/24/32 (AES-128 for a 16-byte key); decryption fails exactly when
encryption is indicated and the key is missing or of a length the cipher
rejects. -/
theorem c4_decryptor (f : GemnsPacketFlags) (key : Option (List Nat)) (block : List Nat)
    (h : block.length = 16) :
    (f.encrypt_status = 1 → decrypt_payload_exc f key block = .ok (mkDecryptedDict f block))
    ∧ (f.encrypt_status ≠ 1 →
        (key = none → decrypt_payload_exc f key block = .error .typeError)
        ∧ (∀ k, key = some k →
            ((k.length = 16 ∨ k.length = 24 ∨ k.length = 32) →
              decrypt_payload_exc f key block = .ok (mkDecryptedDict f (aesDecryptBlock k block)))
            ∧ (¬(k.length = 16 ∨ k.length = 24 ∨ k.length = 32) →
              decrypt_payload_exc f key block = .error .valueError)))
    ∧ (decrypt_payload f key block = none ↔
        (f.encrypt_status ≠ 1 ∧ (key = none ∨ ∃ k, key = some k
          ∧ ¬(k.length = 16 ∨ k.length = 24 ∨ k.length = 32)))) := by
  have heq := decrypt_payload_exc_eq f key block h
  by_cases hes : f.encrypt_status = 1
  · rw [if_pos hes] at heq
    refine ⟨fun _ => heq, fun hne => absurd hes hne, ?_⟩
    unfold decrypt_payload
    rw [heq]
    simp [hes]
  · rw [if_neg hes] at heq
    refine ⟨fun hx => absurd hx hes,
      fun _ => ⟨fun hn => ?_, fun k hk => ⟨fun hlen => ?_, fun hlen => ?_⟩⟩, ?_⟩
    · subst hn; exact heq
    · subst hk; dsimp only at heq; rw [if_pos hlen] at heq; exact heq
    · subst hk; dsimp only at heq; rw [if_neg hlen] at heq; exact heq
    · unfold decrypt_payload
      rw [heq]
      cases key with
      | none => simp [hes]
      | some k =>
          by_cases hlen : k.length = 16 ∨ k.length = 24 ∨ k.length = 32 <;>
            simp [hes, hlen] <;> tauto

/-- C4 amended witness: the cleartext branch on the reference block. -/
theorem c4_decryptor_witness :
    decrypt_payload_exc (GemnsPacketFlags.make 1) none B0
      = .ok (mkDecryptedDict (GemnsPacketFlags.make 1) B0) :=
  (c4_decryptor (GemnsPacketFlags.make 1) none B0 (by decide)).1 (by decide)

/-- C5 counterexample: appending a trailing byte to a CRC-valid 18-byte
packet changes the decode result (the trailing byte shifts the CRC span),
refuting "extra trailing bytes are ignored". -/
theorem c5_counterexample :
    (Pclear ++ [0]).take 18 = Pclear
    ∧ parse_gems_packet Pclear none ≠ none
    ∧ parse_gems_packet (Pclear ++ [0]) none = none :=
  ⟨by decide, by decide, by decide⟩

/-- C5 (amended): decode fails with the frame-parser `ValueError` exactly
for inputs shorter than 18 bytes; the frame parser accepts any input of 18
or more bytes and the orchestrator raises nothing on them — but trailing
bytes are not ignored: they enter the CRC span (see the counterexample). -/
theorem c5_frame_length (raw : List Nat) (key : Option (List Nat)) :
    (raw.length < 18 →
        GemnsPacket.make raw = .error .valueError
        ∧ parseGemsPacketCore raw key = .error .valueError
        ∧ parse_gems_packet raw key = none)
    ∧ (18 ≤ raw.length →
        GemnsPacket.make raw = .ok (mkPacket raw)
        ∧ ∀ e, parseGemsPacketCore raw key ≠ .error e) := by
  constructor
  · intro h
    exact ⟨packet_make_err raw h, core_short raw key h,
      by simp [parse_gems_packet, core_short raw key h]⟩
  · intro h
    refine ⟨packet_make_ok raw h, fun e hne => ?_⟩
    cases hcrc : validate_crc (mkPacket raw) with
    | false => rw [core_badcrc raw key h hcrc] at hne; cases hne
    | true =>
      cases hkt : keyTruthy key with
      | false => rw [core_nokey raw key h hcrc hkt] at hne; cases hne
      | true =>
        cases hd : decrypt_payload (GemnsPacketFlags.make (raw.getD 0 0)) key
            ((raw.drop 1).take 16) with
        | none => rw [core_keyfail raw key h hcrc hkt hd] at hne; cases hne
        | some d =>
            obtain ⟨s, _, hcore⟩ := core_keyok raw key h hcrc hkt d hd
            rw [hcore] at hne; cases hne

/-- C5 amended witness: the empty input is rejected as a format error. -/
theorem c5_frame_length_witness :
    GemnsPacket.make ([] : List Nat) = .error .valueError
    ∧ parseGemsPacketCore [] none = .error .valueError
    ∧ parse_gems_packet [] none = none :=
  (c5_frame_length [] none).1 (by decide)

/-- C6: the record parser always succeeds on a 16-byte block and slices
fields at fixed offsets; the numeric conversions are little-endian and the
firmware byte renders as "major.minor" from its nibbles (0x10 → "1.0",
0x23 → "2.3", 0x00 → "0.0"). -/
theorem c6_record_fields (block : List Nat) (f : GemnsPacketFlags) (h : block.length = 16) :
    GemnsEncryptedData.make block = .ok (GemnsEncryptedData.ofBytes block)
    ∧ (GemnsEncryptedData.ofBytes block).src_id = block.take 3
    ∧ (GemnsEncryptedData.ofBytes block).nwk_id = (block.drop 3).take 2
    ∧ (GemnsEncryptedData.ofBytes block).fw_version = block.getD 5 0
    ∧ (GemnsEncryptedData.ofBytes block).device_type = (block.drop 6).take 2
    ∧ (GemnsEncryptedData.ofBytes block).payload = (block.drop 8).take 8
    ∧ (mkDecryptedDict f block).src_id = leVal (block.take 3)
    ∧ (mkDecryptedDict f block).nwk_id = leVal ((block.drop 3).take 2)
    ∧ (mkDecryptedDict f block).firmware_version
        = toString ((block.getD 5 0 >>> 4) &&& 0x0F) ++ "." ++ toString (block.getD 5 0 &&& 0x0F)
    ∧ firmwareString 0x10 = "1.0" ∧ firmwareString 0x23 = "2.3"
    ∧ firmwareString 0x00 = "0.0" := by
  refine ⟨encMake_ok block h, rfl, rfl, rfl, rfl, rfl, leVal_append_zero (block.take 3),
    rfl, rfl, by decide, by decide, by decide⟩

/-- C6 witness: the reference block's record and firmware rendering. -/
theorem c6_record_fields_witness :
    GemnsEncryptedData.make B0 = .ok (GemnsEncryptedData.ofBytes B0)
    ∧ (mkDecryptedDict (GemnsPacketFlags.make 1) B0).src_id = leVal (B0.take 3)
    ∧ (mkDecryptedDict (GemnsPacketFlags.make 1) B0).firmware_version
        = toString ((B0.getD 5 0 >>> 4) &&& 0x0F) ++ "." ++ toString (B0.getD 5 0 &&& 0x0F) :=
  ⟨(c6_record_fields B0 (GemnsPacketFlags.make 1) (by decide)).1,
   (c6_record_fields B0 (GemnsPacketFlags.make 1) (by decide)).2.2.2.2.2.2.1,
   (c6_record_fields B0 (GemnsPacketFlags.make 1) (by decide)).2.2.2.2.2.2.2.2.1⟩

/-- C7 counterexample: a record whose `payload_length` flags field is 0
(indicating fewer than 4 bytes) but whose payload list still holds 8 bytes
decodes to a non-quiescent event (counter 1, code 4, leak detected) — the
guard reads `len(payload)`, not the flags field. -/
theorem c7_counterexample :
    d1.payload_length = 0
    ∧ leVal d1.device_type = 4
    ∧ parse_sensor_data_exc d1 = .ok
        { device_type := 4, event_counter_lsb := 0, payload_length := 0, encrypt_status := 0,
          power_status := 0, event_counter := some 1, sensor_event := some 4,
          flag := some (SensorBool.leak_detected true) } :=
  ⟨by decide, by decide, by decide⟩

/-- C7 (amended): the quiescent fallback is guarded by the actual payload
byte count, not the `payloadLength` flags field: for every known device
type, when the payload list holds fewer than 4 bytes the event is quiescent
(counter 0, code 0, boolean false). -/
theorem c7_quiescent (d : DecryptedData) (h2 : d.device_type.length = 2)
    (hp : d.payload.length < 4) (hk : leVal d.device_type ∈ ([0, 1, 2, 3, 4] : List Nat)) :
    ∃ s, parse_sensor_data_exc d = .ok s
      ∧ s.event_counter = some 0
      ∧ s.sensor_event = some 0
      ∧ (leVal d.device_type = 4 → s.flag = some (SensorBool.leak_detected false))
      ∧ (leVal d.device_type = 2 → s.flag = some (SensorBool.vibration_detected false))
      ∧ (leVal d.device_type = 3 → s.flag = some (SensorBool.switch_on false))
      ∧ ((leVal d.device_type = 0 ∨ leVal d.device_type = 1) →
          s.flag = some (SensorBool.button_pressed false)) := by
  have hks := sensor_exc_quiescent d h2 hp
  simp only [List.mem_cons, List.not_mem_nil, or_false] at hk
  rcases hk with ht | ht | ht | ht | ht
  · exact ⟨_, hks.2.2.2 (Or.inl ht), rfl, rfl, fun hx => by omega, fun hx => by omega,
      fun hx => by omega, fun _ => rfl⟩
  · exact ⟨_, hks.2.2.2 (Or.inr ht), rfl, rfl, fun hx => by omega, fun hx => by omega,
      fun hx => by omega, fun _ => rfl⟩
  · exact ⟨_, hks.2.1 ht, rfl, rfl, fun hx => by omega, fun _ => rfl, fun hx => by omega,
      fun hx => by rcases hx with hx | hx <;> omega⟩
  · exact ⟨_, hks.2.2.1 ht, rfl, rfl, fun hx => by omega, fun hx => by omega, fun _ => rfl,
      fun hx => by rcases hx with hx | hx <;> omega⟩
  · exact ⟨_, hks.1 ht, rfl, rfl, fun _ => rfl, fun hx => by omega, fun hx => by omega,
      fun hx => by rcases hx with hx | hx <;> omega⟩

/-- C7 amended witness: a leak-sensor record with an empty payload list is
quiescent. -/
theorem c7_quiescent_witness :
    ∃ s, parse_sensor_data_exc dQ = .ok s
      ∧ s.event_counter = some 0
      ∧ s.sensor_event = some 0
      ∧ (leVal dQ.device_type = 4 → s.flag = some (SensorBool.leak_detected false))
      ∧ (leVal dQ.device_type = 2 → s.flag = some (SensorBool.vibration_detected false))
      ∧ (leVal dQ.device_type = 3 → s.flag = some (SensorBool.switch_on false))
      ∧ ((leVal dQ.device_type = 0 ∨ leVal dQ.device_type = 1) →
          s.flag = some (SensorBool.button_pressed false)) :=
  c7_quiescent dQ (by decide) (by decide) (by decide)

/-- C8 counterexample: for unknown device type 5 the decoded dictionary
carries neither the raw event counter nor the raw event code (both keys are
absent), refuting "raw eventCode and eventCounter are still exposed". -/
theorem c8_counterexample :
    leVal d2.device_type = 5
    ∧ parse_sensor_data_exc d2 = .ok
        { device_type := 5, event_counter_lsb := 0, payload_length := 0, encrypt_status := 1,
          power_status := 0, event_counter := none, sensor_event := none, flag := none } :=
  ⟨by decide, by decide⟩

/-- C8 (amended): decoding never fails for device types outside the known
set: it returns the dictionary with the numeric device type and the
diagnostic pass-through fields, but with no device-specific boolean and no
event counter or event code fields. -/
theorem c8_unknown_type (d : DecryptedData) (h2 : d.device_type.length = 2)
    (hk : leVal d.device_type ∉ ([0, 1, 2, 3, 4] : List Nat)) :
    parse_sensor_data_exc d = .ok
      { device_type := leVal d.device_type, event_counter_lsb := d.event_counter_lsb,
        payload_length := d.payload_length, encrypt_status := d.encrypt_status,
        power_status := d.power_status, event_counter := none, sensor_event := none,
        flag := none } := by
  simp only [List.mem_cons, List.not_mem_nil, or_false, not_or] at hk
  obtain ⟨h0, h1, h2', h3, h4⟩ := hk
  exact sensor_exc_unknown d h2 h4 h2' h3 h0 h1

/-- C8 amended witness: the unknown-type record of the reference block. -/
theorem c8_unknown_type_witness :
    parse_sensor_data_exc d2 = .ok
      { device_type := leVal d2.device_type, event_counter_lsb := d2.event_counter_lsb,
        payload_length := d2.payload_length, encrypt_status := d2.encrypt_status,
        power_status := d2.power_status, event_counter := none, sensor_event := none,
        flag := none } :=
  c8_unknown_type d2 (by decide) (by decide)

/-- C9: every exception the orchestrator's `try` body can raise is one of
the caught classes, so `parse_gems_packet` always returns a result or
`None` and never lets an internal error escape. -/
theorem c9_no_uncaught (raw : List Nat) (key : Option (List Nat)) (e : PyExc) :
    parseGemsPacketCore raw key = .error e → pyCaught e = true := by
  intro he
  by_cases h : raw.length < 18
  · rw [core_short raw key h] at he
    cases he
    rfl
  · push_neg at h
    cases hcrc : validate_crc (mkPacket raw) with
    | false => rw [core_badcrc raw key h hcrc] at he; cases he
    | true =>
      cases hkt : keyTruthy key with
      | false => rw [core_nokey raw key h hcrc hkt] at he; cases he
      | true =>
        cases hd : decrypt_payload (GemnsPacketFlags.make (raw.getD 0 0)) key
            ((raw.drop 1).take 16) with
        | none => rw [core_keyfail raw key h hcrc hkt hd] at he; cases he
        | some d =>
            obtain ⟨s, _, hcore⟩ := core_keyok raw key h hcrc hkt d hd
            rw [hcore] at he; cases he

/-- C9 witness: a too-short input raises `ValueError`, which is caught. -/
theorem c9_no_uncaught_witness :
    parseGemsPacketCore [42] none = .error .valueError ∧ pyCaught .valueError = true :=
  ⟨by decide, c9_no_uncaught [42] none .valueError (by decide)⟩

/-- C10: whenever a decode result carries decoded data, the payload field
is exactly 8 bytes, so the 4-byte guard holds, the quiescent branch is not
taken (the event fields come from the payload for every known type), and
the `payload_length` flags field never influences the decoded event fields
— it is pure pass-through. -/
theorem c10_payload_invariant (raw : List Nat) (key : Option (List Nat)) (r : ParseResult)
    (d : DecryptedData) (s : SensorData)
    (hp : parse_gems_packet raw key = some r) (hds : r.decrypted = some (d, s)) :
    d.payload.length = 8
    ∧ 4 ≤ d.payload.length
    ∧ parse_sensor_data_exc d = .ok s
    ∧ (leVal d.device_type ∈ ([0, 1, 2, 3, 4] : List Nat) →
        s.event_counter = some (leVal (d.payload.take 3))
        ∧ s.sensor_event = some (d.payload.getD 3 0))
    ∧ (∀ pl, parse_sensor_data_exc { d with payload_length := pl }
        = Except.map (fun s2 => { s2 with payload_length := pl }) (parse_sensor_data_exc d)) := by
  obtain ⟨h18, hcrc, hkt, hd, hs⟩ := parse_decrypted_inv raw key r d s hp hds
  obtain ⟨h2, h8⟩ := decrypt_payload_some_shape _ key _ d hd
  refine ⟨h8, by omega, hs, fun hk => ?_, fun pl => sensor_pl_irrel d pl⟩
  have hks := sensor_exc_known d h2 (by omega)
  simp only [List.mem_cons, List.not_mem_nil, or_false] at hk
  rcases hk with ht | ht | ht | ht | ht
  · have heq := hks.2.2.2 (Or.inl ht)
    rw [heq] at hs
    injection hs with h'
    subst h'
    exact ⟨rfl, rfl⟩
  · have heq := hks.2.2.2 (Or.inr ht)
    rw [heq] at hs
    injection hs with h'
    subst h'
    exact ⟨rfl, rfl⟩
  · have heq := hks.2.1 ht
    rw [heq] at hs
    injection hs with h'
    subst h'
    exact ⟨rfl, rfl⟩
  · have heq := hks.2.2.1 ht
    rw [heq] at hs
    injection hs with h'
    subst h'
    exact ⟨rfl, rfl⟩
  · have heq := hks.1 ht
    rw [heq] at hs
    injection hs with h'
    subst h'
    exact ⟨rfl, rfl⟩

/-- C10 witness: the cleartext end-to-end decode of the reference packet. -/
theorem c10_payload_invariant_witness :
    d0.payload.length = 8
    ∧ 4 ≤ d0.payload.length
    ∧ parse_sensor_data_exc d0 = .ok s0
    ∧ (leVal d0.device_type ∈ ([0, 1, 2, 3, 4] : List Nat) →
        s0.event_counter = some (leVal (d0.payload.take 3))
        ∧ s0.sensor_event = some (d0.payload.getD 3 0))
    ∧ (∀ pl, parse_sensor_data_exc { d0 with payload_length := pl }
        = Except.map (fun s2 => { s2 with payload_length := pl }) (parse_sensor_data_exc d0)) :=
  c10_payload_invariant Pclear (some [1]) r0 d0 s0 (by decide) (by decide)

end Gemns
